import Mathlib

/-!
Shallow embedding of the wallet-signature authentication flow of
`routes/web3Auth.js` (nonce issuance and signature verification).

The identity store (the Prisma `user` table restricted to the fields this
flow touches) is a list of records; the route handlers are pure functions
from a store and a request to a store and a response.  External
collaborators — `ethers.isAddress`, `ethers.verifyMessage` and `jwt.sign` —
are abstract parameters collected in `Env`; `Math.random()` is passed in as
an exact rational `num/den` with `num < den`; `new Date()` values are passed
in as an abstract tick `now : Nat` and, for the ISO string interpolated in
the challenge message, an abstract string `nowIso`.
-/

namespace Certify

/-- The fields of the Prisma `user` record that the authentication flow
reads or writes (`company` relations are never touched by these routes and
are omitted). -/
structure User where
  id : Nat
  walletAddress : String
  email : Option String
  nonce : String
  isVerified : Bool
  lastLogin : Option Nat
  createdAt : Nat
  updatedAt : Nat
deriving Repr, DecidableEq

/-- The `user` table. -/
abbrev Store := List User

/-- External collaborators used by the routes: the ethers address-format
validator, ethers signature recovery (`none` models a thrown error), and
JWT signing (address and issuance tick to token). -/
structure Env where
  isAddress : String → Bool
  verifyMessage : String → String → Option String
  jwtSign : String → Nat → String

/-- JavaScript `String.prototype.toLowerCase()` on the character data. -/
def strToLower (s : String) : String :=
  ⟨s.data.map Char.toLower⟩

/-- JavaScript `String.prototype.startsWith` on character lists. -/
def startsWithList : List Char → List Char → Bool
  | _, [] => true
  | [], _ :: _ => false
  | c :: cs, p :: ps => c == p && startsWithList cs ps

/-- JavaScript `String.prototype.includes` (substring test) on character
lists. -/
def containsList : List Char → List Char → Bool
  | [], pat => startsWithList [] pat
  | c :: cs, pat => startsWithList (c :: cs) pat || containsList cs pat

/-- JavaScript `message.includes(nonce)`. -/
def strIncludes (s pat : String) : Bool :=
  containsList s.data pat.data

/-- JavaScript truthiness of a possibly-absent string field: `undefined`
and the empty string are falsy. -/
def jsTruthy : Option String → Bool
  | none => false
  | some s => !(s == "")

/-- A JSON request body, modelled as an association list from field names
to string values. -/
abbrev ReqBody := List (String × String)

/-- Destructuring a field out of `req.body`. -/
def getField (b : ReqBody) (k : String) : Option String :=
  (b.find? (fun p => p.fst == k)).map (fun p => p.snd)

/-- Source: `const generateNonce = () => Math.floor(Math.random() * 1000000).toString();`
with the `Math.random()` sample given exactly as `num/den ∈ [0,1)`. -/
def generateNonce (num den : Nat) : String :=
  Nat.repr (num * 1000000 / den)

/-- Source: `prisma.user.findUnique({ where: { walletAddress: key } })`. -/
def findUnique (s : Store) (key : String) : Option User :=
  s.find? (fun u => u.walletAddress == key)

/-- Source: the `prisma.user.upsert` of the nonce route — update rewrites
`nonce` and `updatedAt`, create inserts a record with the fresh nonce and
`isVerified: false` (id, email, lastLogin, createdAt filled by the
database defaults). -/
def upsertNonce (s : Store) (key nonce : String) (now : Nat) : Store :=
  match findUnique s key with
  | some _ =>
    s.map (fun u => if u.walletAddress == key then
      { u with nonce := nonce, updatedAt := now } else u)
  | none =>
    s ++ [{ id := s.length, walletAddress := key, email := none,
            nonce := nonce, isVerified := false, lastLogin := none,
            createdAt := now, updatedAt := now }]

/-- Source: the `prisma.user.update` of the verify route. -/
def updateVerified (s : Store) (key nonce : String) (now : Nat) : Store :=
  s.map (fun u => if u.walletAddress == key then
    { u with isVerified := true, lastLogin := some now, nonce := nonce } else u)

/-- The challenge message template of the nonce route. -/
def nonceMessage (nonce nowIso : String) : String :=
  "Connectez-vous à CertifiChain avec votre wallet.\n\nNonce: " ++ nonce ++
    "\nTimestamp: " ++ nowIso

/-- Response body of `GET /api/auth/nonce/:walletAddress`. -/
inductive NonceBody where
  | err (error : String)
  | ok (nonce : String) (message : String)
deriving Repr, DecidableEq

/-- An HTTP response of the nonce route. -/
structure NonceResp where
  status : Nat
  body : NonceBody
deriving Repr, DecidableEq

/-- The fields of the user object serialized in the verify response
(again without the untouched `company` relation). -/
structure UserOut where
  id : Nat
  walletAddress : String
  email : Option String
  isVerified : Bool
  lastLogin : Option Nat
deriving Repr, DecidableEq

/-- Response body of `POST /api/auth/verify`: an error object with an
`error` string and an optional `code`, or the success object. -/
inductive VerifyBody where
  | err (error : String) (code : Option String)
  | ok (message : String) (user : UserOut) (accessToken : String)
deriving Repr, DecidableEq

/-- An HTTP response of the verify route. -/
structure VerifyResp where
  status : Nat
  body : VerifyBody
deriving Repr, DecidableEq

/-- Handler of `GET /api/auth/nonce/:walletAddress`, translated line by
line from `routes/web3Auth.js`. -/
def getNonce (env : Env) (num den now : Nat) (nowIso : String)
    (s : Store) (walletAddress : String) : Store × NonceResp :=
  if !(env.isAddress walletAddress) then
    (s, ⟨400, .err "Format d\x27adresse wallet invalide"⟩)
  else
    let nonce := generateNonce num den
    (upsertNonce s (strToLower walletAddress) nonce now,
     ⟨200, .ok nonce (nonceMessage nonce nowIso)⟩)

/-- Handler of `POST /api/auth/verify`, translated line by line from
`routes/web3Auth.js`.  `num/den` is the `Math.random()` sample consumed by
the nonce rotation on success; `prisma.user.update` returns the updated
row, i.e. the looked-up record with the three written fields replaced. -/
def verify (env : Env) (num den now : Nat) (s : Store) (body : ReqBody) :
    Store × VerifyResp :=
  let wa? := getField body "walletAddress"
  let sig? := getField body "signature"
  let msg? := getField body "message"
  if !(jsTruthy wa?) || !(jsTruthy sig?) || !(jsTruthy msg?) then
    (s, ⟨400, .err "Adresse wallet, signature et message requis" none⟩)
  else
    let walletAddress := wa?.getD ""
    let signature := sig?.getD ""
    let message := msg?.getD ""
    if !(env.isAddress walletAddress) then
      (s, ⟨400, .err "Format d\x27adresse wallet invalide" none⟩)
    else
      match findUnique s (strToLower walletAddress) with
      | none =>
        (s, ⟨404, .err "Utilisateur non trouvé. Récupérez d\x27abord un nonce." none⟩)
      | some user =>
        if !(strIncludes message user.nonce) then
          (s, ⟨400, .err "Nonce invalide dans le message" none⟩)
        else
          match env.verifyMessage message signature with
          | none =>
            (s, ⟨401, .err "Erreur lors de la vérification de la signature" none⟩)
          | some recovered =>
            if !(strToLower recovered == strToLower walletAddress) then
              (s, ⟨401, .err "Signature invalide" (some "INVALID_SIGNATURE")⟩)
            else
              let newNonce := generateNonce num den
              (updateVerified s (strToLower walletAddress) newNonce now,
               ⟨200, .ok "Connexion réussie"
                 ⟨user.id, user.walletAddress, user.email, true, some now⟩
                 (env.jwtSign (strToLower walletAddress) now)⟩)

/-- The shape of the verify request body sent by the frontend client
(`services/api.ts`): keys `walletAddress`, `signature`, `message`. -/
def stdBody (wa sig msg : String) : ReqBody :=
  [("walletAddress", wa), ("signature", sig), ("message", msg)]

end Certify

/-!
Helper lemmas.  First: the decimal representation `Nat.repr` is injective,
via the decimal value of a digit list as a left inverse; this backs the
count of distinct nonce values.
-/

namespace Certify

/-- Decimal value of a digit-character list, most significant digit
first. -/
def digitsVal (l : List Char) : Nat :=
  l.foldl (fun acc c => acc * 10 + (c.toNat - 48)) 0

theorem digitsVal_foldl (l : List Char) (a : Nat) :
    l.foldl (fun acc c => acc * 10 + (c.toNat - 48)) a =
      a * 10 ^ l.length + digitsVal l := by
  induction l generalizing a with
  | nil => simp [digitsVal]
  | cons c cs ih =>
    simp only [List.foldl, digitsVal, pow_succ, List.length]
    rw [ih, ih (0 * 10 + _)]
    ring

theorem digitsVal_append (xs ys : List Char) :
    digitsVal (xs ++ ys) = digitsVal xs * 10 ^ ys.length + digitsVal ys := by
  unfold digitsVal
  rw [List.foldl_append, digitsVal_foldl]
  rfl

theorem digitChar_val (m : Nat) (h : m < 10) :
    (Nat.digitChar m).toNat - 48 = m := by
  interval_cases m <;> decide

theorem toDigitsCore_append (fuel n : Nat) (ds : List Char) :
    Nat.toDigitsCore 10 fuel n ds = Nat.toDigitsCore 10 fuel n [] ++ ds := by
  induction fuel generalizing n ds with
  | zero => simp [Nat.toDigitsCore]
  | succ fuel ih =>
    simp only [Nat.toDigitsCore]
    by_cases h : n / 10 = 0
    · simp [h]
    · simp only [h, if_false]
      rw [ih (n / 10) (Nat.digitChar (n % 10) :: ds),
          ih (n / 10) [Nat.digitChar (n % 10)]]
      simp

theorem digitsVal_toDigitsCore (fuel n : Nat) (h : n < fuel) :
    digitsVal (Nat.toDigitsCore 10 fuel n []) = n := by
  induction fuel generalizing n with
  | zero => omega
  | succ fuel ih =>
    simp only [Nat.toDigitsCore]
    by_cases h0 : n / 10 = 0
    · have hn : n < 10 := by omega
      simp only [h0, if_true]
      simp [digitsVal, Nat.mod_eq_of_lt hn, digitChar_val n hn]
    · simp only [h0, if_false]
      rw [toDigitsCore_append]
      have hlt : n / 10 < fuel := by
        have h1 : n / 10 < n := Nat.div_lt_self (by omega) (by norm_num)
        omega
      rw [digitsVal_append, ih (n / 10) hlt]
      simp [digitsVal, digitChar_val (n % 10) (Nat.mod_lt n (by omega))]
      omega

theorem digitsVal_repr (n : Nat) : digitsVal (Nat.repr n).toList = n := by
  unfold Nat.repr Nat.toDigits
  rw [List.toList_asString]
  exact digitsVal_toDigitsCore (n + 1) n (Nat.lt_succ_self n)

theorem repr_injective : Function.Injective Nat.repr := by
  intro a b h
  have := digitsVal_repr a
  rw [h, digitsVal_repr] at this
  omega

/-!
Lemmas about the request-body accessors and the JavaScript string
helpers.
-/

theorem getField_std_wa (wa sig msg : String) :
    getField (stdBody wa sig msg) "walletAddress" = some wa := by
  simp [getField, stdBody]

theorem getField_std_sig (wa sig msg : String) :
    getField (stdBody wa sig msg) "signature" = some sig := by
  simp [getField, stdBody]

theorem getField_std_msg (wa sig msg : String) :
    getField (stdBody wa sig msg) "message" = some msg := by
  simp [getField, stdBody]

theorem jsTruthy_some (a : String) (h : a ≠ "") : jsTruthy (some a) = true := by
  simp [jsTruthy, h]

theorem findUnique_walletAddress (s : Store) (key : String) (u : User)
    (h : findUnique s key = some u) : u.walletAddress = key := by
  have := List.find?_some h
  exact eq_of_beq this

theorem startsWithList_nil (l : List Char) : startsWithList l [] = true := by
  cases l <;> rfl

theorem startsWithList_append (pat rest : List Char) :
    startsWithList (pat ++ rest) pat = true := by
  induction pat with
  | nil => exact startsWithList_nil rest
  | cons c cs ih => simp [startsWithList, ih]

theorem containsList_append (pre pat rest : List Char) :
    containsList (pre ++ pat ++ rest) pat = true := by
  induction pre with
  | nil =>
    rw [List.nil_append]
    cases h : pat ++ rest with
    | nil =>
      rcases List.append_eq_nil.mp h with ⟨h1, h2⟩
      subst h1; subst h2; rfl
    | cons c cs =>
      show (startsWithList (c :: cs) pat || containsList cs pat) = true
      rw [← h, startsWithList_append, Bool.true_or]
  | cons c cs ih =>
    rw [List.cons_append, List.cons_append]
    show (startsWithList (c :: (cs ++ pat ++ rest)) pat ||
      containsList (cs ++ pat ++ rest) pat) = true
    rw [ih, Bool.or_true]

theorem strIncludes_append (a pat b : String) :
    strIncludes (a ++ pat ++ b) pat = true := by
  have : (a ++ pat ++ b).data = a.data ++ pat.data ++ b.data := by
    simp [String.data_append]
  simp only [strIncludes, this]
  exact containsList_append a.data pat.data b.data

/-!
Lemmas about the store operations.
-/

theorem findUnique_map (s : Store) (key : String) (f : User → User)
    (hf : ∀ u, (f u).walletAddress = u.walletAddress) :
    findUnique (s.map (fun u => if u.walletAddress == key then f u else u)) key
      = (findUnique s key).map f := by
  induction s with
  | nil => rfl
  | cons u us ih =>
    by_cases h : u.walletAddress == key
    · simp [findUnique, List.find?, h, hf]
    · simp only [List.map_cons]
      rw [if_neg h]
      simp only [findUnique, List.find?] at ih ⊢
      rw [Bool.of_not_eq_true h] at *
      simpa using ih

theorem findUnique_append_none (s t : Store) (key : String)
    (h : findUnique s key = none) :
    findUnique (s ++ t) key = findUnique t key := by
  induction s with
  | nil => rfl
  | cons u us ih =>
    simp only [findUnique, List.find?, List.cons_append] at h ⊢
    cases hu : (u.walletAddress == key) with
    | true => rw [hu] at h; simp at h
    | false =>
      rw [hu] at h
      simp only [hu]
      exact ih h

theorem findUnique_updateVerified (s : Store) (key nn : String) (now : Nat) :
    findUnique (updateVerified s key nn now) key
      = (findUnique s key).map
          (fun u => { u with isVerified := true, lastLogin := some now, nonce := nn }) :=
  findUnique_map s key _ (fun _ => rfl)

theorem findUnique_upsertNonce (s : Store) (key nn : String) (now : Nat) :
    findUnique (upsertNonce s key nn now) key
      = match findUnique s key with
        | some u => some { u with nonce := nn, updatedAt := now }
        | none => some { id := s.length, walletAddress := key, email := none,
                         nonce := nn, isVerified := false, lastLogin := none,
                         createdAt := now, updatedAt := now } := by
  unfold upsertNonce
  cases h : findUnique s key with
  | some u =>
    dsimp only
    rw [findUnique_map s key
      (fun u => { u with nonce := nn, updatedAt := now }) (fun _ => rfl), h]
    rfl
  | none =>
    dsimp only
    rw [findUnique_append_none s _ key h]
    simp [findUnique, List.find?]

theorem findUnique_upsertNonce_nonce (s : Store) (key nn : String) (now : Nat) :
    ∃ u, findUnique (upsertNonce s key nn now) key = some u ∧ u.nonce = nn := by
  rw [findUnique_upsertNonce]
  cases findUnique s key <;> exact ⟨_, rfl, rfl⟩

end Certify

/-!
Characterization of each control-flow path of the two handlers.
-/

namespace Certify

theorem verify_missing (env : Env) (num den now : Nat) (s : Store) (body : ReqBody)
    (h : (!(jsTruthy (getField body "walletAddress")) ||
          !(jsTruthy (getField body "signature")) ||
          !(jsTruthy (getField body "message"))) = true) :
    verify env num den now s body =
      (s, ⟨400, .err "Adresse wallet, signature et message requis" none⟩) := by
  simp only [verify]
  rw [h]
  rfl

theorem verify_std_invalidAddr (env : Env) (num den now : Nat) (s : Store)
    (wa sig msg : String) (hwa : wa ≠ "") (hsig : sig ≠ "") (hmsg : msg ≠ "")
    (hA : env.isAddress wa = false) :
    verify env num den now s (stdBody wa sig msg) =
      (s, ⟨400, .err "Format d\x27adresse wallet invalide" none⟩) := by
  simp [verify, getField_std_wa, getField_std_sig, getField_std_msg,
    jsTruthy_some _ hwa, jsTruthy_some _ hsig, jsTruthy_some _ hmsg, hA]

theorem verify_std_notFound (env : Env) (num den now : Nat) (s : Store)
    (wa sig msg : String) (hwa : wa ≠ "") (hsig : sig ≠ "") (hmsg : msg ≠ "")
    (hA : env.isAddress wa = true)
    (hu : findUnique s (strToLower wa) = none) :
    verify env num den now s (stdBody wa sig msg) =
      (s, ⟨404, .err "Utilisateur non trouvé. Récupérez d\x27abord un nonce." none⟩) := by
  simp [verify, getField_std_wa, getField_std_sig, getField_std_msg,
    jsTruthy_some _ hwa, jsTruthy_some _ hsig, jsTruthy_some _ hmsg, hA, hu]

theorem verify_std_badNonce (env : Env) (num den now : Nat) (s : Store)
    (wa sig msg : String) (u : User)
    (hwa : wa ≠ "") (hsig : sig ≠ "") (hmsg : msg ≠ "")
    (hA : env.isAddress wa = true)
    (hu : findUnique s (strToLower wa) = some u)
    (hinc : strIncludes msg u.nonce = false) :
    verify env num den now s (stdBody wa sig msg) =
      (s, ⟨400, .err "Nonce invalide dans le message" none⟩) := by
  simp [verify, getField_std_wa, getField_std_sig, getField_std_msg,
    jsTruthy_some _ hwa, jsTruthy_some _ hsig, jsTruthy_some _ hmsg, hA, hu, hinc]

theorem verify_std_sigError (env : Env) (num den now : Nat) (s : Store)
    (wa sig msg : String) (u : User)
    (hwa : wa ≠ "") (hsig : sig ≠ "") (hmsg : msg ≠ "")
    (hA : env.isAddress wa = true)
    (hu : findUnique s (strToLower wa) = some u)
    (hinc : strIncludes msg u.nonce = true)
    (hrec : env.verifyMessage msg sig = none) :
    verify env num den now s (stdBody wa sig msg) =
      (s, ⟨401, .err "Erreur lors de la vérification de la signature" none⟩) := by
  simp [verify, getField_std_wa, getField_std_sig, getField_std_msg,
    jsTruthy_some _ hwa, jsTruthy_some _ hsig, jsTruthy_some _ hmsg, hA, hu, hinc, hrec]

theorem verify_std_sigMismatch (env : Env) (num den now : Nat) (s : Store)
    (wa sig msg : String) (u : User) (R : String)
    (hwa : wa ≠ "") (hsig : sig ≠ "") (hmsg : msg ≠ "")
    (hA : env.isAddress wa = true)
    (hu : findUnique s (strToLower wa) = some u)
    (hinc : strIncludes msg u.nonce = true)
    (hrec : env.verifyMessage msg sig = some R)
    (hne : strToLower R ≠ strToLower wa) :
    verify env num den now s (stdBody wa sig msg) =
      (s, ⟨401, .err "Signature invalide" (some "INVALID_SIGNATURE")⟩) := by
  simp [verify, getField_std_wa, getField_std_sig, getField_std_msg,
    jsTruthy_some _ hwa, jsTruthy_some _ hsig, jsTruthy_some _ hmsg, hA, hu, hinc, hrec, hne]

theorem verify_std_success (env : Env) (num den now : Nat) (s : Store)
    (wa sig msg : String) (u : User) (R : String)
    (hwa : wa ≠ "") (hsig : sig ≠ "") (hmsg : msg ≠ "")
    (hA : env.isAddress wa = true)
    (hu : findUnique s (strToLower wa) = some u)
    (hinc : strIncludes msg u.nonce = true)
    (hrec : env.verifyMessage msg sig = some R)
    (hmatch : strToLower R = strToLower wa) :
    verify env num den now s (stdBody wa sig msg) =
      (updateVerified s (strToLower wa) (generateNonce num den) now,
       ⟨200, .ok "Connexion réussie"
         ⟨u.id, u.walletAddress, u.email, true, some now⟩
         (env.jwtSign (strToLower wa) now)⟩) := by
  simp [verify, getField_std_wa, getField_std_sig, getField_std_msg,
    jsTruthy_some _ hwa, jsTruthy_some _ hsig, jsTruthy_some _ hmsg, hA, hu, hinc, hrec, hmatch]

theorem getNonce_invalid (env : Env) (num den now : Nat) (iso : String)
    (s : Store) (a : String) (h : env.isAddress a = false) :
    getNonce env num den now iso s a =
      (s, ⟨400, .err "Format d\x27adresse wallet invalide"⟩) := by
  simp [getNonce, h]

theorem getNonce_valid (env : Env) (num den now : Nat) (iso : String)
    (s : Store) (a : String) (h : env.isAddress a = true) :
    getNonce env num den now iso s a =
      (upsertNonce s (strToLower a) (generateNonce num den) now,
       ⟨200, .ok (generateNonce num den)
         (nonceMessage (generateNonce num den) iso)⟩) := by
  simp [getNonce, h]

theorem strIncludes_nonceMessage (nonce iso : String) :
    strIncludes (nonceMessage nonce iso) nonce = true := by
  have hd : (nonceMessage nonce iso).data =
      ("Connectez-vous à CertifiChain avec votre wallet.\n\nNonce: ").data ++
        (nonce.data ++ (("\nTimestamp: ").data ++ iso.data)) := by
    simp [nonceMessage, String.data_append]
  simp only [strIncludes, hd]
  rw [← List.append_assoc, ← List.append_assoc,
    List.append_assoc _ ("\nTimestamp: ").data iso.data]
  exact containsList_append _ _ _

theorem nonceMessage_ne_empty (nonce iso : String) : nonceMessage nonce iso ≠ "" := by
  intro h
  have : (nonceMessage nonce iso).data = [] := by rw [h]
  simp [nonceMessage, String.data_append] at this

theorem verify_store_cases (env : Env) (num den now : Nat) (s : Store) (body : ReqBody) :
    (verify env num den now s body).1 = s ∨
      (verify env num den now s body).2.status = 200 := by
  simp only [verify]
  repeat' split
  all_goals simp

/-- Dependence of the verify handler on the claimed address factors
through its emptiness, its validation result and its lowercasing. -/
theorem verify_std_congr (env : Env) (num den now : Nat) (s : Store)
    (a1 a2 sig msg : String)
    (hbeq : (a1 == "") = (a2 == ""))
    (haddr : env.isAddress a1 = env.isAddress a2)
    (hlow : strToLower a1 = strToLower a2) :
    verify env num den now s (stdBody a1 sig msg) =
      verify env num den now s (stdBody a2 sig msg) := by
  simp only [verify, getField_std_wa, getField_std_sig, getField_std_msg,
    Option.getD_some, jsTruthy]
  rw [hbeq, haddr, hlow]

end Certify

/-!
Concrete environments and stores used as instances in witnesses and
counterexamples.
-/

namespace Certify

/-- Mock environment: one valid address, recovery succeeds exactly on one
message/signature pair and yields that address. -/
def envRecover : Env :=
  { isAddress := fun a => a == "0xab",
    verifyMessage := fun m sg =>
      if sg == "s" && m == "Nonce: 123456" then some "0xab" else none,
    jwtSign := fun _ _ => "tok" }

/-- Mock environment that rejects every address and every signature. -/
def envReject : Env :=
  { isAddress := fun _ => false,
    verifyMessage := fun _ _ => none,
    jwtSign := fun _ _ => "tok" }

/-- Mock environment whose recovery yields a fixed wrong address on the
signature "good" and raises on any other signature. -/
def envSig : Env :=
  { isAddress := fun a => a == "0xab",
    verifyMessage := fun _ sg => if sg == "good" then some "0xff" else none,
    jwtSign := fun _ _ => "tok" }

/-- Mock environment accepting every case variant of one address. -/
def envCase : Env :=
  { isAddress := fun a => strToLower a == "0xab",
    verifyMessage := fun _ _ => none,
    jwtSign := fun _ _ => "tok" }

/-- Mock environment for the full nonce-then-verify round trip: recovery
succeeds on the challenge message issued for nonce "123456". -/
def envRound : Env :=
  { isAddress := fun a => a == "0xAb",
    verifyMessage := fun m sg =>
      if sg == "s" && m == nonceMessage "123456" "T0" then some "0xAB" else none,
    jwtSign := fun w _ => w }

/-- An identity record holding the live nonce "123456". -/
def user0 : User :=
  { id := 0, walletAddress := "0xab", email := none, nonce := "123456",
    isVerified := false, lastLogin := none, createdAt := 0, updatedAt := 0 }

def store0 : Store := [user0]

/-- The matching verify request: the message is not the issued challenge
template, it merely contains the nonce. -/
def body0 : ReqBody := stdBody "0xab" "s" "Nonce: 123456"

end Certify

namespace Certify

/-- C1. Round-trip success: for any address accepted by the format
validator, issuing a nonce and then posting to verify the issued challenge
message together with a signature whose recovery yields the same
case-normalized address returns status 200 with an access token and a user
object whose verified flag is true, and leaves the stored identity record
verified with lastLogin set. -/
theorem C1_roundtrip_success (env : Env) (n1 d1 now1 : Nat) (iso : String)
    (n2 d2 now2 : Nat) (s : Store) (A sig R : String)
    (hA : env.isAddress A = true) (hAne : A ≠ "") (hsig : sig ≠ "")
    (hrec : env.verifyMessage (nonceMessage (generateNonce n1 d1) iso) sig = some R)
    (hmatch : strToLower R = strToLower A) :
    (verify env n2 d2 now2 (getNonce env n1 d1 now1 iso s A).1
        (stdBody A sig (nonceMessage (generateNonce n1 d1) iso))).2.status = 200 ∧
    (∃ uo tok, (verify env n2 d2 now2 (getNonce env n1 d1 now1 iso s A).1
        (stdBody A sig (nonceMessage (generateNonce n1 d1) iso))).2.body =
        VerifyBody.ok "Connexion réussie" uo tok ∧ uo.isVerified = true) ∧
    (∃ u2, findUnique (verify env n2 d2 now2 (getNonce env n1 d1 now1 iso s A).1
        (stdBody A sig (nonceMessage (generateNonce n1 d1) iso))).1 (strToLower A) =
        some u2 ∧ u2.isVerified = true ∧ u2.lastLogin = some now2) := by
  obtain ⟨u1, hu1, hn1⟩ :=
    findUnique_upsertNonce_nonce s (strToLower A) (generateNonce n1 d1) now1
  have hstore : (getNonce env n1 d1 now1 iso s A).1 =
      upsertNonce s (strToLower A) (generateNonce n1 d1) now1 := by
    rw [getNonce_valid env n1 d1 now1 iso s A hA]
  have hinc : strIncludes (nonceMessage (generateNonce n1 d1) iso) u1.nonce = true := by
    rw [hn1]; exact strIncludes_nonceMessage _ _
  have hv := verify_std_success env n2 d2 now2
    (upsertNonce s (strToLower A) (generateNonce n1 d1) now1) A sig
    (nonceMessage (generateNonce n1 d1) iso) u1 R hAne hsig
    (nonceMessage_ne_empty _ _) hA hu1 hinc hrec hmatch
  rw [hstore, hv]
  refine ⟨rfl, ⟨_, _, rfl, rfl⟩, ?_⟩
  rw [findUnique_updateVerified, hu1]
  exact ⟨_, rfl, rfl, rfl⟩

theorem C1_roundtrip_success_witness :
    (verify envRound 7 1000000 22 (getNonce envRound 123456 1000000 11 "T0" [] "0xAb").1
        (stdBody "0xAb" "s" (nonceMessage (generateNonce 123456 1000000) "T0"))).2.status = 200 ∧
    (∃ uo tok, (verify envRound 7 1000000 22 (getNonce envRound 123456 1000000 11 "T0" [] "0xAb").1
        (stdBody "0xAb" "s" (nonceMessage (generateNonce 123456 1000000) "T0"))).2.body =
        VerifyBody.ok "Connexion réussie" uo tok ∧ uo.isVerified = true) ∧
    (∃ u2, findUnique (verify envRound 7 1000000 22 (getNonce envRound 123456 1000000 11 "T0" [] "0xAb").1
        (stdBody "0xAb" "s" (nonceMessage (generateNonce 123456 1000000) "T0"))).1
        (strToLower "0xAb") = some u2 ∧ u2.isVerified = true ∧ u2.lastLogin = some 22) :=
  C1_roundtrip_success envRound 123456 1000000 11 "T0" 7 1000000 22 [] "0xAb" "s" "0xAB"
    (by decide) (by decide) (by decide) (by decide) (by decide)

/-- C2. Verify is atomic: whenever the verify handler does not answer 200
(missing fields, malformed address, unknown identity, nonce mismatch or
invalid signature), the store is returned unchanged — no nonce rotation,
no isVerified change, no lastLogin change; the commit runs only on the
success path. -/
theorem C2_verify_atomic (env : Env) (num den now : Nat) (s : Store) (body : ReqBody)
    (h : (verify env num den now s body).2.status ≠ 200) :
    (verify env num den now s body).1 = s := by
  rcases verify_store_cases env num den now s body with h1 | h2
  · exact h1
  · exact absurd h2 h

theorem C2_verify_atomic_witness :
    (verify envReject 0 1 0 store0 body0).2.status ≠ 200 ∧
    (verify envReject 0 1 0 store0 body0).1 = store0 :=
  ⟨by decide, C2_verify_atomic envReject 0 1 0 store0 body0 (by decide)⟩

/-- C7. Malformed address rejected early: whenever the address-format
validation fails, the nonce route answers 400 with the invalid-address
error and returns the store untouched, before any other processing. -/
theorem C7_malformed_address_rejected (env : Env) (num den now : Nat)
    (iso : String) (s : Store) (a : String)
    (h : env.isAddress a = false) :
    getNonce env num den now iso s a =
      (s, ⟨400, NonceBody.err "Format d\x27adresse wallet invalide"⟩) :=
  getNonce_invalid env num den now iso s a h

theorem C7_malformed_address_rejected_witness :
    getNonce envReject 0 1 0 "T0" store0 "not-an-address" =
      (store0, ⟨400, NonceBody.err "Format d\x27adresse wallet invalide"⟩) :=
  C7_malformed_address_rejected envReject 0 1 0 "T0" store0 "not-an-address" (by decide)

/-- C10. The verifier does not require the signed message to equal the
issued challenge text: any message that contains the stored nonce as a
substring and whose signature recovers to the claimed address is accepted
with status 200. -/
theorem C10_any_message_with_nonce_accepted (env : Env) (num den now : Nat)
    (s : Store) (wa sig msg : String) (u : User) (R : String)
    (hwa : wa ≠ "") (hsig : sig ≠ "") (hmsg : msg ≠ "")
    (hA : env.isAddress wa = true)
    (hu : findUnique s (strToLower wa) = some u)
    (hinc : strIncludes msg u.nonce = true)
    (hrec : env.verifyMessage msg sig = some R)
    (hmatch : strToLower R = strToLower wa) :
    (verify env num den now s (stdBody wa sig msg)).2.status = 200 := by
  rw [verify_std_success env num den now s wa sig msg u R hwa hsig hmsg hA hu hinc hrec hmatch]

theorem C10_any_message_with_nonce_accepted_witness :
    (verify envRecover 0 1 0 store0 (stdBody "0xab" "s" "Nonce: 123456")).2.status = 200 :=
  C10_any_message_with_nonce_accepted envRecover 0 1 0 store0 "0xab" "s" "Nonce: 123456"
    user0 "0xab" (by decide) (by decide) (by decide) (by decide) (by decide) (by decide)
    (by decide) (by decide)

end Certify

namespace Certify

/-- C3 counterexample: with the stored nonce "123456" and the rotation
sample producing the fresh nonce "3", a successful verify is followed by a
successful replay of the identical message/signature pair — status 200,
not the claimed NonceMismatch 400 — because the fresh nonce "3" occurs
inside the replayed message. -/
theorem C3_replay_can_succeed :
    (verify envRecover 3 1000000 1 store0 body0).2.status = 200 ∧
    (verify envRecover 7 1000000 2
        (verify envRecover 3 1000000 1 store0 body0).1 body0).2.status = 200 := by
  decide

/-- C3 amended: after a successful verify the stored nonce is replaced by
the freshly generated nonce, and replaying the consumed message/signature
pair fails with the NonceMismatch error (400) provided the fresh nonce
does not occur as a substring of the replayed message. -/
theorem C3_nonce_single_use (env : Env) (num den now num2 den2 now2 : Nat)
    (s : Store) (wa sig msg : String) (u : User) (R : String)
    (hwa : wa ≠ "") (hsig : sig ≠ "") (hmsg : msg ≠ "")
    (hA : env.isAddress wa = true)
    (hu : findUnique s (strToLower wa) = some u)
    (hinc : strIncludes msg u.nonce = true)
    (hrec : env.verifyMessage msg sig = some R)
    (hmatch : strToLower R = strToLower wa)
    (hfresh : strIncludes msg (generateNonce num den) = false) :
    (verify env num den now s (stdBody wa sig msg)).2.status = 200 ∧
    (∃ u2, findUnique (verify env num den now s (stdBody wa sig msg)).1
        (strToLower wa) = some u2 ∧ u2.nonce = generateNonce num den) ∧
    verify env num2 den2 now2 (verify env num den now s (stdBody wa sig msg)).1
        (stdBody wa sig msg) =
      ((verify env num den now s (stdBody wa sig msg)).1,
       ⟨400, .err "Nonce invalide dans le message" none⟩) := by
  have hv := verify_std_success env num den now s wa sig msg u R
    hwa hsig hmsg hA hu hinc hrec hmatch
  rw [hv]
  have hu2 : findUnique
      (updateVerified s (strToLower wa) (generateNonce num den) now) (strToLower wa) =
      some { u with isVerified := true, lastLogin := some now,
                    nonce := generateNonce num den } := by
    rw [findUnique_updateVerified, hu]
    rfl
  refine ⟨rfl, ⟨_, hu2, rfl⟩, ?_⟩
  exact verify_std_badNonce env num2 den2 now2 _ wa sig msg _ hwa hsig hmsg hA hu2 hfresh

theorem C3_nonce_single_use_witness :
    (verify envRecover 999998 1000000 1 store0 (stdBody "0xab" "s" "Nonce: 123456")).2.status = 200 ∧
    (∃ u2, findUnique (verify envRecover 999998 1000000 1 store0
        (stdBody "0xab" "s" "Nonce: 123456")).1 (strToLower "0xab") = some u2 ∧
        u2.nonce = generateNonce 999998 1000000) ∧
    verify envRecover 5 1000000 2
        (verify envRecover 999998 1000000 1 store0 (stdBody "0xab" "s" "Nonce: 123456")).1
        (stdBody "0xab" "s" "Nonce: 123456") =
      ((verify envRecover 999998 1000000 1 store0 (stdBody "0xab" "s" "Nonce: 123456")).1,
       ⟨400, .err "Nonce invalide dans le message" none⟩) :=
  C3_nonce_single_use envRecover 999998 1000000 1 5 1000000 2 store0 "0xab" "s"
    "Nonce: 123456" user0 "0xab" (by decide) (by decide) (by decide) (by decide)
    (by decide) (by decide) (by decide) (by decide) (by decide)

/-- C4 counterexample: on the same store, the recovered-address-mismatch
failure and the recovery-error failure both answer 401 but with different
bodies — different error strings, and only the mismatch carries the
machine-readable code INVALID_SIGNATURE — so a caller can distinguish
them, contrary to the claim of a uniform error body. -/
theorem C4_signature_errors_differ :
    (verify envSig 0 1 0 store0 (stdBody "0xab" "good" "Nonce: 123456")).2 =
      ⟨401, .err "Signature invalide" (some "INVALID_SIGNATURE")⟩ ∧
    (verify envSig 0 1 0 store0 (stdBody "0xab" "bad" "Nonce: 123456")).2 =
      ⟨401, .err "Erreur lors de la vérification de la signature" none⟩ ∧
    (verify envSig 0 1 0 store0 (stdBody "0xab" "good" "Nonce: 123456")).2.body ≠
      (verify envSig 0 1 0 store0 (stdBody "0xab" "bad" "Nonce: 123456")).2.body := by
  decide

/-- C4 amended: the two signature failures share the status code 401, but
their bodies differ — the mismatch answers with error "Signature invalide"
and code INVALID_SIGNATURE, the recovery error with error "Erreur lors de
la vérification de la signature" and no code — so the two checks are
distinguishable by the caller. -/
theorem C4_signature_errors_same_status (env : Env) (num den now : Nat) (s : Store)
    (wa sig msg : String) (u : User)
    (hwa : wa ≠ "") (hsig : sig ≠ "") (hmsg : msg ≠ "")
    (hA : env.isAddress wa = true)
    (hu : findUnique s (strToLower wa) = some u)
    (hinc : strIncludes msg u.nonce = true) :
    (env.verifyMessage msg sig = none →
      verify env num den now s (stdBody wa sig msg) =
        (s, ⟨401, .err "Erreur lors de la vérification de la signature" none⟩)) ∧
    (∀ R, env.verifyMessage msg sig = some R → strToLower R ≠ strToLower wa →
      verify env num den now s (stdBody wa sig msg) =
        (s, ⟨401, .err "Signature invalide" (some "INVALID_SIGNATURE")⟩)) ∧
    VerifyBody.err "Erreur lors de la vérification de la signature" none ≠
      VerifyBody.err "Signature invalide" (some "INVALID_SIGNATURE") :=
  ⟨fun hrec => verify_std_sigError env num den now s wa sig msg u
      hwa hsig hmsg hA hu hinc hrec,
   fun R hrec hne => verify_std_sigMismatch env num den now s wa sig msg u R
      hwa hsig hmsg hA hu hinc hrec hne,
   by decide⟩

theorem C4_signature_errors_same_status_witness :
    verify envSig 0 1 0 store0 (stdBody "0xab" "good" "Nonce: 123456") =
      (store0, ⟨401, .err "Signature invalide" (some "INVALID_SIGNATURE")⟩) :=
  (C4_signature_errors_same_status envSig 0 1 0 store0 "0xab" "good" "Nonce: 123456"
    user0 (by decide) (by decide) (by decide) (by decide) (by decide) (by decide)).2.1
    "0xff" (by decide) (by decide)

end Certify

namespace Certify

/-- C5 counterexample: a request body carrying the claim's field names —
address, signature, message — with a valid address, an existing identity,
the stored nonce in the message and a signature recovering to the address
is nonetheless rejected by the missing-fields check, because the handler
destructures the field walletAddress, not address. -/
theorem C5_address_field_rejected :
    verify envRecover 0 1 0 store0
        [("address", "0xab"), ("signature", "s"), ("message", "Nonce: 123456")] =
      (store0, ⟨400, .err "Adresse wallet, signature et message requis" none⟩) := by
  decide

/-- C5 amended: the verify wire contract with the field names the code
reads — walletAddress, signature, message: 400 when a field is missing or
empty, then 400 on a malformed address, then 404 when no identity record
exists for the lowercased address, then 400 when the message does not
contain the stored nonce, then 401 when recovery fails or the recovered
address mismatches, and otherwise 200 with a body carrying an access token
and a user object; the checks apply in exactly this order. -/
theorem C5_verify_wire_contract (env : Env) (num den now : Nat) (s : Store)
    (body : ReqBody) (wa sig msg : String) (u : User) (R : String) :
    ((!(jsTruthy (getField body "walletAddress")) ||
      !(jsTruthy (getField body "signature")) ||
      !(jsTruthy (getField body "message"))) = true →
      verify env num den now s body =
        (s, ⟨400, .err "Adresse wallet, signature et message requis" none⟩)) ∧
    (wa ≠ "" → sig ≠ "" → msg ≠ "" →
      env.isAddress wa = false →
      verify env num den now s (stdBody wa sig msg) =
        (s, ⟨400, .err "Format d\x27adresse wallet invalide" none⟩)) ∧
    (wa ≠ "" → sig ≠ "" → msg ≠ "" →
      env.isAddress wa = true → findUnique s (strToLower wa) = none →
      verify env num den now s (stdBody wa sig msg) =
        (s, ⟨404, .err "Utilisateur non trouvé. Récupérez d\x27abord un nonce." none⟩)) ∧
    (wa ≠ "" → sig ≠ "" → msg ≠ "" →
      env.isAddress wa = true → findUnique s (strToLower wa) = some u →
      strIncludes msg u.nonce = false →
      verify env num den now s (stdBody wa sig msg) =
        (s, ⟨400, .err "Nonce invalide dans le message" none⟩)) ∧
    (wa ≠ "" → sig ≠ "" → msg ≠ "" →
      env.isAddress wa = true → findUnique s (strToLower wa) = some u →
      strIncludes msg u.nonce = true → env.verifyMessage msg sig = none →
      (verify env num den now s (stdBody wa sig msg)).2.status = 401) ∧
    (wa ≠ "" → sig ≠ "" → msg ≠ "" →
      env.isAddress wa = true → findUnique s (strToLower wa) = some u →
      strIncludes msg u.nonce = true → env.verifyMessage msg sig = some R →
      strToLower R ≠ strToLower wa →
      (verify env num den now s (stdBody wa sig msg)).2.status = 401) ∧
    (wa ≠ "" → sig ≠ "" → msg ≠ "" →
      env.isAddress wa = true → findUnique s (strToLower wa) = some u →
      strIncludes msg u.nonce = true → env.verifyMessage msg sig = some R →
      strToLower R = strToLower wa →
      ∃ uo tok, verify env num den now s (stdBody wa sig msg) =
        (updateVerified s (strToLower wa) (generateNonce num den) now,
         ⟨200, .ok "Connexion réussie" uo tok⟩)) := by
  refine ⟨fun h => verify_missing env num den now s body h,
    fun h1 h2 h3 h4 => verify_std_invalidAddr env num den now s wa sig msg h1 h2 h3 h4,
    fun h1 h2 h3 h4 h5 => verify_std_notFound env num den now s wa sig msg h1 h2 h3 h4 h5,
    fun h1 h2 h3 h4 h5 h6 =>
      verify_std_badNonce env num den now s wa sig msg u h1 h2 h3 h4 h5 h6,
    fun h1 h2 h3 h4 h5 h6 h7 => ?_, fun h1 h2 h3 h4 h5 h6 h7 h8 => ?_,
    fun h1 h2 h3 h4 h5 h6 h7 h8 => ?_⟩
  · rw [verify_std_sigError env num den now s wa sig msg u h1 h2 h3 h4 h5 h6 h7]
  · rw [verify_std_sigMismatch env num den now s wa sig msg u R h1 h2 h3 h4 h5 h6 h7 h8]
  · exact ⟨_, _,
      verify_std_success env num den now s wa sig msg u R h1 h2 h3 h4 h5 h6 h7 h8⟩

theorem C5_verify_wire_contract_witness :
    verify envRecover 0 1 0 [] (stdBody "0xab" "s" "m") =
      ([], ⟨404, .err "Utilisateur non trouvé. Récupérez d\x27abord un nonce." none⟩) :=
  (C5_verify_wire_contract envRecover 0 1 0 [] (stdBody "0xab" "s" "m")
    "0xab" "s" "m" user0 "r").2.2.1 (by decide) (by decide) (by decide)
    (by decide) (by decide)

/-- C6. Case insensitivity: two address strings with the same lowercasing
that both pass format validation are interchangeable — the nonce route
produces identical stores and responses for them, and so does the verify
route, since every store access and comparison is keyed on the lowercased
address. -/
theorem C6_case_insensitive (env : Env) (num den now : Nat) (iso : String)
    (num2 den2 now2 : Nat) (s : Store) (a1 a2 sig msg : String)
    (hlow : strToLower a1 = strToLower a2)
    (h1 : env.isAddress a1 = true) (h2 : env.isAddress a2 = true)
    (hne1 : a1 ≠ "") (hne2 : a2 ≠ "") :
    getNonce env num den now iso s a1 = getNonce env num den now iso s a2 ∧
    verify env num2 den2 now2 s (stdBody a1 sig msg) =
      verify env num2 den2 now2 s (stdBody a2 sig msg) := by
  constructor
  · rw [getNonce_valid env num den now iso s a1 h1,
       getNonce_valid env num den now iso s a2 h2, hlow]
  · exact verify_std_congr env num2 den2 now2 s a1 a2 sig msg
      (by rw [beq_eq_false_iff_ne.mpr hne1, beq_eq_false_iff_ne.mpr hne2])
      (h1.trans h2.symm) hlow

theorem C6_case_insensitive_witness :
    getNonce envCase 1 2 3 "T0" store0 "0xAB" = getNonce envCase 1 2 3 "T0" store0 "0xab" ∧
    verify envCase 1 2 3 store0 (stdBody "0xAB" "s" "m") =
      verify envCase 1 2 3 store0 (stdBody "0xab" "s" "m") :=
  C6_case_insensitive envCase 1 2 3 "T0" 1 2 3 store0 "0xAB" "0xab" "s" "m"
    (by decide) (by decide) (by decide) (by decide) (by decide)

/-- The set of strings the nonce generator can produce: decimal encodings
of the naturals below one million. -/
def nonceValues : Finset String := (Finset.range 1000000).image Nat.repr

/-- C8. Nonce range: for any random sample num/den in the unit interval,
the generated nonce is the decimal encoding of a natural strictly below
1000000; every such encoding is attainable, and the space of possible
nonces has exactly one million distinct values. -/
theorem C8_nonce_range (num den : Nat) (_hden : 0 < den) (hlt : num < den) :
    (∃ k, k < 1000000 ∧ generateNonce num den = Nat.repr k) ∧
    generateNonce num den ∈ nonceValues ∧
    (∀ x ∈ nonceValues, ∃ n2 d2, 0 < d2 ∧ n2 < d2 ∧ generateNonce n2 d2 = x) ∧
    nonceValues.card = 1000000 := by
  have hk : num * 1000000 / den < 1000000 := by
    apply Nat.div_lt_of_lt_mul
    exact mul_lt_mul_of_pos_right hlt (by norm_num)
  refine ⟨⟨num * 1000000 / den, hk, rfl⟩, ?_, ?_, ?_⟩
  · exact Finset.mem_image.mpr ⟨_, Finset.mem_range.mpr hk, rfl⟩
  · intro x hx
    obtain ⟨k, hk2, rfl⟩ := Finset.mem_image.mp hx
    refine ⟨k, 1000000, by norm_num, Finset.mem_range.mp hk2, ?_⟩
    unfold generateNonce
    rw [Nat.mul_div_cancel _ (by norm_num)]
  · rw [nonceValues, Finset.card_image_of_injective _ repr_injective, Finset.card_range]

theorem C8_nonce_range_witness :
    (∃ k, k < 1000000 ∧ generateNonce 3 4 = Nat.repr k) ∧
    generateNonce 3 4 ∈ nonceValues ∧
    (∀ x ∈ nonceValues, ∃ n2 d2, 0 < d2 ∧ n2 < d2 ∧ generateNonce n2 d2 = x) ∧
    nonceValues.card = 1000000 :=
  C8_nonce_range 3 4 (by decide) (by decide)

/-- C9. Issue-nonce frame effect: on a validated address, the nonce route
answers 200 with the fresh nonce and a challenge message containing it;
when a record for the lowercased address exists, only its nonce and
updatedAt fields are overwritten — isVerified, lastLogin and all other
fields and records are untouched; when none exists, exactly one record is
appended, carrying the fresh nonce and isVerified = false. -/
theorem C9_issue_nonce_frame (env : Env) (num den now : Nat) (iso : String)
    (s : Store) (a : String) (hA : env.isAddress a = true) :
    (getNonce env num den now iso s a).2 =
      ⟨200, .ok (generateNonce num den) (nonceMessage (generateNonce num den) iso)⟩ ∧
    strIncludes (nonceMessage (generateNonce num den) iso) (generateNonce num den) = true ∧
    (∀ u, findUnique s (strToLower a) = some u →
      (getNonce env num den now iso s a).1 =
        s.map (fun v => if v.walletAddress == strToLower a then
          { v with nonce := generateNonce num den, updatedAt := now } else v) ∧
      findUnique (getNonce env num den now iso s a).1 (strToLower a) =
        some { u with nonce := generateNonce num den, updatedAt := now }) ∧
    (findUnique s (strToLower a) = none →
      (getNonce env num den now iso s a).1 =
        s ++ [{ id := s.length, walletAddress := strToLower a, email := none,
                nonce := generateNonce num den, isVerified := false, lastLogin := none,
                createdAt := now, updatedAt := now }]) := by
  have hv := getNonce_valid env num den now iso s a hA
  rw [hv]
  refine ⟨rfl, strIncludes_nonceMessage _ _, ?_, ?_⟩
  · intro u hu
    constructor
    · show upsertNonce s (strToLower a) (generateNonce num den) now = _
      unfold upsertNonce
      rw [hu]
    · rw [findUnique_upsertNonce, hu]
  · intro hnone
    show upsertNonce s (strToLower a) (generateNonce num den) now = _
    unfold upsertNonce
    rw [hnone]

theorem C9_issue_nonce_frame_witness :
    (getNonce envCase 5 1000000 9 "T0" store0 "0xAB").2 =
      ⟨200, .ok (generateNonce 5 1000000) (nonceMessage (generateNonce 5 1000000) "T0")⟩ ∧
    strIncludes (nonceMessage (generateNonce 5 1000000) "T0") (generateNonce 5 1000000) = true ∧
    (∀ u, findUnique store0 (strToLower "0xAB") = some u →
      (getNonce envCase 5 1000000 9 "T0" store0 "0xAB").1 =
        store0.map (fun v => if v.walletAddress == strToLower "0xAB" then
          { v with nonce := generateNonce 5 1000000, updatedAt := 9 } else v) ∧
      findUnique (getNonce envCase 5 1000000 9 "T0" store0 "0xAB").1 (strToLower "0xAB") =
        some { u with nonce := generateNonce 5 1000000, updatedAt := 9 }) ∧
    (findUnique store0 (strToLower "0xAB") = none →
      (getNonce envCase 5 1000000 9 "T0" store0 "0xAB").1 =
        store0 ++ [{ id := store0.length, walletAddress := strToLower "0xAB",
                     email := none, nonce := generateNonce 5 1000000, isVerified := false,
                     lastLogin := none, createdAt := 9, updatedAt := 9 }]) :=
  C9_issue_nonce_frame envCase 5 1000000 9 "T0" store0 "0xAB" (by decide)

end Certify
